import Mathlib

/-!
Verification of the protocol/parsing core of the ax-devil-rtsp repository.

Bytes are modelled as `Nat` values (machine bytes are < 256; the bitwise
operations used by the source are total on `Nat`). Byte strings are
`List Nat`. Python text strings are Lean `String`s; decoded XML text is a
list of Unicode code points (`List Nat`).

The definitions are shallow embeddings of:
- `CombinedRTSPClient._on_new_application_data_sample`
  (src/ax_devil_rtsp/gstreamer_data_grabber.py)
- `MetadataClient._on_new_sample` (src/ax_devil_rtsp/metadata_gstreamer.py)
- `VideoClient._convert_ntp_to_unix` (src/ax_devil_rtsp/gstreamer.py)
- `RTSPProtocolClient` (src/ax_devil_rtsp/metadata_raw.py)
- `RtspDataRetriever` (src/ax_devil_rtsp/rtsp_data_retrievers.py)
-/

namespace AxDevilRtsp

/-! ## Byte-level helpers shared by the RTP handlers -/

/-- `raw[0] & 0x0F`: the CSRC count is the low nibble of byte 0.
`headD 0` models indexing into a buffer that the caller has checked to be
nonempty (both sources check `len < 12` first; for the empty buffer the
value is irrelevant because the length check fires). -/
def csrcCount (raw : List Nat) : Nat := raw.headD 0 &&& 15

/-- `12 + 4 * csrc_count`: the computed RTP header length. -/
def headerLength (raw : List Nat) : Nat := 12 + 4 * csrcCount raw

/-- `bool(raw[1] & 0x80)`: the RTP marker bit (bit 7 of byte 1). -/
def markerBit (raw : List Nat) : Bool := raw.getD 1 0 &&& 128 != 0

/-- `raw[hdr_len:]`: the RTP payload after the computed header. -/
def rtpPayload (raw : List Nat) : List Nat := raw.drop (headerLength raw)

/-- `bytes.find(b)`: index of the first occurrence of byte `b`, or none
(the source's `-1`). -/
def findByte (b : Nat) : List Nat → Option Nat
  | [] => none
  | x :: xs => if x = b then some 0 else (findByte b xs).map (· + 1)

/-- Continuation byte test for strict UTF-8 decoding: `0x80 ≤ b ≤ 0xBF`. -/
def isCont (b : Nat) : Bool := 0x80 ≤ b && b ≤ 0xBF

/-- One strict-UTF-8 decoding step, as performed by Python's
`bytes.decode("utf-8")`: reads one code point (rejecting overlong
encodings, surrogates, and code points above U+10FFFF) and returns it
with the remaining bytes, or `none` on a `UnicodeDecodeError`. -/
def utf8Step : List Nat → Option (Nat × List Nat)
  | [] => none
  | b :: rest =>
    if b ≤ 0x7F then some (b, rest)
    else if 0xC2 ≤ b && b ≤ 0xDF then
      match rest with
      | b2 :: r2 =>
        if isCont b2 then some ((b - 0xC0) * 64 + (b2 - 0x80), r2)
        else none
      | [] => none
    else if b = 0xE0 then
      match rest with
      | b2 :: b3 :: r3 =>
        if (0xA0 ≤ b2 && b2 ≤ 0xBF) && isCont b3 then
          some ((b - 0xE0) * 4096 + (b2 - 0x80) * 64 + (b3 - 0x80), r3)
        else none
      | _ => none
    else if (0xE1 ≤ b && b ≤ 0xEC) || (0xEE ≤ b && b ≤ 0xEF) then
      match rest with
      | b2 :: b3 :: r3 =>
        if isCont b2 && isCont b3 then
          some ((b - 0xE0) * 4096 + (b2 - 0x80) * 64 + (b3 - 0x80), r3)
        else none
      | _ => none
    else if b = 0xED then
      match rest with
      | b2 :: b3 :: r3 =>
        if (0x80 ≤ b2 && b2 ≤ 0x9F) && isCont b3 then
          some ((b - 0xE0) * 4096 + (b2 - 0x80) * 64 + (b3 - 0x80), r3)
        else none
      | _ => none
    else if b = 0xF0 then
      match rest with
      | b2 :: b3 :: b4 :: r4 =>
        if (0x90 ≤ b2 && b2 ≤ 0xBF) && (isCont b3 && isCont b4) then
          some ((b - 0xF0) * 262144 + (b2 - 0x80) * 4096 +
            (b3 - 0x80) * 64 + (b4 - 0x80), r4)
        else none
      | _ => none
    else if 0xF1 ≤ b && b ≤ 0xF3 then
      match rest with
      | b2 :: b3 :: b4 :: r4 =>
        if isCont b2 && (isCont b3 && isCont b4) then
          some ((b - 0xF0) * 262144 + (b2 - 0x80) * 4096 +
            (b3 - 0x80) * 64 + (b4 - 0x80), r4)
        else none
      | _ => none
    else if b = 0xF4 then
      match rest with
      | b2 :: b3 :: b4 :: r4 =>
        if (0x80 ≤ b2 && b2 ≤ 0x8F) && (isCont b3 && isCont b4) then
          some ((b - 0xF0) * 262144 + (b2 - 0x80) * 4096 +
            (b3 - 0x80) * 64 + (b4 - 0x80), r4)
        else none
      | _ => none
    else none

/-- Iterated decoding with a fuel bound on the number of code points
(each step consumes at least one byte, so `l.length` fuel always
suffices; the fuel only makes the recursion structural). -/
def utf8DecodeFuel : Nat → List Nat → Option (List Nat)
  | _, [] => some []
  | 0, _ :: _ => none
  | fuel + 1, b :: rest =>
    match utf8Step (b :: rest) with
    | none => none
    | some (c, rem) => (utf8DecodeFuel fuel rem).map (c :: ·)

/-- Strict UTF-8 decoding of a whole byte string, as performed by
Python's `bytes.decode("utf-8")`: the decoded code points, or `none` on
a `UnicodeDecodeError`. -/
def utf8Decode (l : List Nat) : Option (List Nat) := utf8DecodeFuel l.length l

/-! ## FragmentReassembler, grabber variant
`CombinedRTSPClient._on_new_application_data_sample`
(gstreamer_data_grabber.py, lines 334-390). The pipeline-engine plumbing
(pull-sample, buffer mapping, timers, diagnostics payload, user callback
invocation) is external; the embedded state is the `_xml_acc` accumulator
and the outcome of one packet. -/

/-- Outcome of one application-data sample in the grabber client. The two
error constructors before the payload is touched correspond to
`_report_error("RTP Header", ...)` for `len < 12` and for
`len < hdr_len`. -/
inductive AppOutcome where
  | errTooShort
  | errIncompleteHeader
  | okNoMarker
  | errNoXmlStart
  | errDecode
  | emitted (msg : List Nat)
  deriving DecidableEq, Repr

/-- `_report_error("RTP Header", ...)` outcomes: the packet was shorter
than the computed RTP header. -/
def AppOutcome.isTruncated : AppOutcome → Bool
  | .errTooShort => true
  | .errIncompleteHeader => true
  | _ => false

/-- One call of `CombinedRTSPClient._on_new_application_data_sample` on a
raw RTP buffer, given the current `_xml_acc`; returns the new `_xml_acc`
and the outcome. -/
def onNewApplicationDataSample (acc raw : List Nat) : List Nat × AppOutcome :=
  if raw.length < 12 then (acc, .errTooShort)
  else if raw.length < headerLength raw then (acc, .errIncompleteHeader)
  else
    let acc2 := acc ++ rtpPayload raw
    if !markerBit raw then (acc2, .okNoMarker)
    else
      match findByte 60 acc2 with
      | none => ([], .errNoXmlStart)
      | some start =>
        match utf8Decode (acc2.drop start) with
        | none => ([], .errDecode)
        | some s => ([], .emitted s)

/-- Messages emitted by one outcome (zero or one). -/
def AppOutcome.toMessages : AppOutcome → List (List Nat)
  | .emitted m => [m]
  | _ => []

/-- Feed a sequence of raw RTP buffers through the grabber handler,
starting from accumulator `acc`; returns the final accumulator and the
emitted messages in order. -/
def runApp : List (List Nat) → List Nat → List Nat × List (List Nat)
  | [], acc => (acc, [])
  | p :: ps, acc =>
    let r := onNewApplicationDataSample acc p
    let rest := runApp ps r.1
    (rest.1, r.2.toMessages ++ rest.2)

/-- Concatenation of the RTP payloads of a packet sequence. -/
def concatPayloads (ps : List (List Nat)) : List Nat :=
  (ps.map rtpPayload).flatten

/-! ## FragmentReassembler, metadata-client variant
`MetadataClient._on_new_sample` (metadata_gstreamer.py, lines 110-184).
Same structure, plus an extra check that the decoded text, after
`str.lstrip()`, starts with `<`. -/

/-- Code points stripped by Python's `str.lstrip()` / `str.strip()`
(the characters for which `str.isspace()` holds). -/
def isPySpaceCp (c : Nat) : Bool :=
  c ∈ [9, 10, 11, 12, 13, 28, 29, 30, 31, 32, 133, 160, 5760,
       8192, 8193, 8194, 8195, 8196, 8197, 8198, 8199, 8200, 8201, 8202,
       8232, 8233, 8239, 8287, 12288]

/-- `xml_text.lstrip().startswith("<")` on decoded code points. -/
def lstripStartsWithLt (s : List Nat) : Bool :=
  match s.dropWhile (fun c => isPySpaceCp c) with
  | 60 :: _ => true
  | _ => false

/-- Outcome of one sample in `MetadataClient._on_new_sample`. -/
inductive MetaOutcome where
  | errTooShort
  | errIncompleteHeader
  | okNoMarker
  | errNoXmlStart
  | errDecode
  | errNotXml
  | emitted (msg : List Nat)
  deriving DecidableEq, Repr

/-- The sample was shorter than the computed RTP header (the two
`logger.error` + `Gst.FlowReturn.ERROR` branches before the payload is
read). -/
def MetaOutcome.isTruncated : MetaOutcome → Bool
  | .errTooShort => true
  | .errIncompleteHeader => true
  | _ => false

/-- One call of `MetadataClient._on_new_sample` on a raw RTP buffer, given
the current `xml_buffer`; returns the new `xml_buffer` and the outcome. -/
def onNewSample (buf raw : List Nat) : List Nat × MetaOutcome :=
  if raw.length < 12 then (buf, .errTooShort)
  else if raw.length < headerLength raw then (buf, .errIncompleteHeader)
  else
    let buf2 := buf ++ rtpPayload raw
    if !markerBit raw then (buf2, .okNoMarker)
    else
      match findByte 60 buf2 with
      | none => ([], .errNoXmlStart)
      | some start =>
        match utf8Decode (buf2.drop start) with
        | none => ([], .errDecode)
        | some s =>
          if lstripStartsWithLt s then ([], .emitted s)
          else ([], .errNotXml)

/-- Messages emitted by one metadata-client outcome. -/
def MetaOutcome.toMessages : MetaOutcome → List (List Nat)
  | .emitted m => [m]
  | _ => []

/-- Feed a sequence of raw RTP buffers through the metadata-client
handler. -/
def runMeta : List (List Nat) → List Nat → List Nat × List (List Nat)
  | [], buf => (buf, [])
  | p :: ps, buf =>
    let r := onNewSample buf p
    let rest := runMeta ps r.1
    (rest.1, r.2.toMessages ++ rest.2)

/-! ## NTP-to-unix conversion
`VideoClient._convert_ntp_to_unix` (gstreamer.py, lines 63-65) and the
inline computation in `CombinedRTSPClient._rtp_probe`
(gstreamer_data_grabber.py, lines 263-266):
`ntp_seconds - 2208988800 + ntp_fraction / (2**32)`.
Python evaluates the division in floating point; the embedding uses exact
rational arithmetic, the idealised value the float approximates. -/

def convertNtpToUnix (ntpSeconds ntpFraction : Nat) : ℚ :=
  (ntpSeconds : ℚ) - 2208988800 + (ntpFraction : ℚ) / 2 ^ 32

/-! ## RtspDataRetriever lifecycle
`RtspDataRetriever` (rtsp_data_retrievers.py). The lifecycle state is the
`_proc` / `_queue_thread` / `_stop_event` triple; `some alive` models a
process/thread object whose `is_alive()` returns `alive`. -/

structure RetrieverState where
  proc : Option Bool
  queueThread : Option Bool
  stopEventSet : Bool
  deriving DecidableEq, Repr

/-- The state established by `RtspDataRetriever.__init__`: no process, no
dispatch thread, stop event clear. -/
def initRetriever : RetrieverState :=
  { proc := none, queueThread := none, stopEventSet := false }

/-- `RtspDataRetriever.stop` (lines 250-267): returns immediately when
`_proc is None`; otherwise sets the stop event, terminates/joins the
process and thread (external effects), and clears both references. -/
def RetrieverState.stop (r : RetrieverState) : RetrieverState :=
  match r.proc with
  | none => r
  | some _ => { proc := none, queueThread := none, stopEventSet := true }

/-! ## Consumer-side queue dispatch loop
`RtspDataRetriever._queue_dispatch_loop` (lines 275-327), modelled over a
trace of poll results: each loop iteration performs one
`queue.get(timeout=QUEUE_POLL_INTERVAL)`, which either yields an item or
raises `queue.Empty`. `stopSet` and `procAlive` model
`_stop_event.is_set()` and `_proc.is_alive()`, held constant over the
trace. The resulting list is the sequence of items dispatched to consumer
callbacks. -/

/-- One poll result: an item carrying its event payload, or `queue.Empty`. -/
inductive PollResult where
  | item (payload : String)
  | empty
  deriving DecidableEq, Repr

/-- `QUEUE_POLL_INTERVAL: float = 0.5` (line 185). -/
def QUEUE_POLL_INTERVAL : ℚ := 1 / 2

/-- `wait_time_s = 10` (line 281). -/
def dispatchWaitTime : ℚ := 10

/-- `MAX_EMPTY_POLLS = wait_time_s / QUEUE_POLL_INTERVAL` (line 282). -/
def MAX_EMPTY_POLLS : ℚ := dispatchWaitTime / QUEUE_POLL_INTERVAL

/-- The dispatch loop over a trace of poll results, starting from
`consecutive_empty = consec`; returns the dispatched items in order. -/
def queueDispatchLoop (stopSet procAlive : Bool) :
    List PollResult → Nat → List String
  | [], _ => []
  | p :: ps, consec =>
    if stopSet then []
    else
      match p with
      | .item payload => payload :: queueDispatchLoop stopSet procAlive ps 0
      | .empty =>
        if stopSet then []
        else if !procAlive then []
        else if MAX_EMPTY_POLLS ≤ ((consec + 1 : Nat) : ℚ) then []
        else queueDispatchLoop stopSet procAlive ps (consec + 1)

/-! ## RTSPProtocolClient (metadata_raw.py)
The socket is an external collaborator: the embeddings take the server's
behaviour as a function from the request text to the response text, and
`hashlib.md5` / `os.urandom(8).hex()` as parameters (`md5`, `cnonce`). -/

/-- Python exceptions escaping `RTSPProtocolClient` methods:
`attributeError` models calling `.group(1)` on a failed `re.search`
(which returns `None`); `raisedException` models an explicit
`raise Exception(msg)`. -/
inductive PyError where
  | attributeError
  | raisedException (msg : String)
  deriving DecidableEq, Repr

/-- A failure raised deliberately by the code (an explicit
`raise Exception(...)` carrying an identifying message), as opposed to an
incidental crash such as an `AttributeError`. -/
def PyError.isDeliberate : PyError → Bool
  | .raisedException _ => true
  | .attributeError => false

/-- Python `str.strip()` on a character list. -/
def pyStrip (l : List Char) : List Char :=
  ((l.dropWhile (fun c => isPySpaceCp c.toNat)).reverse.dropWhile
    (fun c => isPySpaceCp c.toNat)).reverse

/-- Python `str.strip()`. -/
def pyStripStr (s : String) : String := (pyStrip s.data).asString

/-- Python `needle in hay` on character lists. -/
def listContainsSub (needle : List Char) : List Char → Bool
  | [] => needle.isPrefixOf []
  | c :: rest => needle.isPrefixOf (c :: rest) || listContainsSub needle rest

/-- Python `needle in hay` on strings. -/
def strContainsSub (hay needle : String) : Bool :=
  listContainsSub needle.data hay.data

/-- `re.search(pat + '="([^"]+)"', s)`, returning group 1: scans for the
leftmost position where the literal pattern `pat="` is followed by one or
more non-quote characters and a closing quote. -/
def reSearchQuoted (pat : List Char) : List Char → Option (List Char)
  | [] => none
  | c :: rest =>
    if pat.isPrefixOf (c :: rest) then
      let after := (c :: rest).drop pat.length
      let content := after.takeWhile (fun ch => ch != '"')
      if content.length ≥ 1 && (after.drop content.length).length ≥ 1 then
        some content
      else reSearchQuoted pat rest
    else reSearchQuoted pat rest

/-- `re.search(key + '="([^"]+)"', wwwAuth)` group 1, e.g.
`re.search(r'realm="([^"]+)"', www_auth)` for `key = "realm"`. -/
def searchParam (key : String) (wwwAuth : String) : Option String :=
  (reSearchQuoted (key.data ++ ['=', '"']) wwwAuth.data).map List.asString

/-- `re.search(r'WWW-Authenticate:\s*(Digest.*)', response, re.IGNORECASE)`,
returning group 1: the leftmost case-insensitive occurrence of
`WWW-Authenticate:`, followed by optional whitespace, must be followed by
a case-insensitive `Digest`; the group runs from there to the end of the
line (`.` does not match a newline). -/
def findWwwAuthDigest : List Char → Option (List Char)
  | [] => none
  | c :: rest =>
    let s := c :: rest
    if (s.take 17).map Char.toLower == "www-authenticate:".data then
      let afterWs := (s.drop 17).dropWhile (fun ch => isPySpaceCp ch.toNat)
      if (afterWs.take 6).map Char.toLower == "digest".data then
        some (afterWs.takeWhile (fun ch => ch != '\n'))
      else findWwwAuthDigest rest
    else findWwwAuthDigest rest

/-- `RTSPProtocolClient.compute_digest_auth` (metadata_raw.py, lines
66-84). `md5` stands for `hashlib.md5(...).hexdigest()` on the argument
text and `cnonce` for `os.urandom(8).hex()`. A failed `re.search` for
realm or nonce makes `.group(1)` raise an `AttributeError`. -/
def compute_digest_auth (md5 : String → String) (cnonce : String)
    (username password : String) (wwwAuth method uri : String) :
    Except PyError String :=
  match searchParam "realm" wwwAuth with
  | none => .error .attributeError
  | some realm =>
    match searchParam "nonce" wwwAuth with
    | none => .error .attributeError
    | some nonce =>
      let qop? := searchParam "qop" wwwAuth
      let ha1 := md5 (username ++ ":" ++ realm ++ ":" ++ password)
      let ha2 := md5 (method ++ ":" ++ uri)
      match qop? with
      | some qop =>
        let nc := "00000001"
        let responseHash := md5 (ha1 ++ ":" ++ nonce ++ ":" ++ nc ++ ":" ++
          cnonce ++ ":" ++ qop ++ ":" ++ ha2)
        .ok ("Digest username=\"" ++ username ++ "\", realm=\"" ++ realm ++
          "\", nonce=\"" ++ nonce ++ "\", uri=\"" ++ uri ++
          "\", response=\"" ++ responseHash ++ "\", algorithm=\"MD5\", qop=" ++
          qop ++ ", nc=" ++ nc ++ ", cnonce=\"" ++ cnonce ++ "\"")
      | none =>
        let responseHash := md5 (ha1 ++ ":" ++ nonce ++ ":" ++ ha2)
        .ok ("Digest username=\"" ++ username ++ "\", realm=\"" ++ realm ++
          "\", nonce=\"" ++ nonce ++ "\", uri=\"" ++ uri ++
          "\", response=\"" ++ responseHash ++ "\", algorithm=\"MD5\"")

/-- The mutable fields of `RTSPProtocolClient` used by request building
(the socket itself is external). -/
structure ClientState where
  username : String
  password : String
  user_agent : String
  base_url : String
  cseq : Nat
  session_id : Option String
  deriving DecidableEq, Repr

/-- `RTSPProtocolClient._build_request` (lines 43-55). -/
def build_request (c : ClientState) (method url extra_headers : String)
    (auth : Option String) : String :=
  let headers := [method ++ " " ++ url ++ " RTSP/1.0",
                  "CSeq: " ++ toString c.cseq,
                  "User-Agent: " ++ c.user_agent]
  let headers := headers ++ (match c.session_id with
    | some sid => ["Session: " ++ sid]
    | none => [])
  let headers := headers ++
    (if extra_headers != "" then [pyStripStr extra_headers] else [])
  let headers := headers ++ (match auth with
    | some a => ["Authorization: " ++ a]
    | none => [])
  String.intercalate "\r\n" headers ++ "\r\n\r\n"

/-- `RTSPProtocolClient.handle_401` (lines 86-90): if the response carries
a `WWW-Authenticate: Digest ...` header, compute the digest authorization
from its stripped value; otherwise raise. -/
def handle_401 (md5 : String → String) (cnonce : String) (c : ClientState)
    (response method uri : String) : Except PyError String :=
  match findWwwAuthDigest response.data with
  | some g =>
    compute_digest_auth md5 cnonce c.username c.password
      (pyStrip g).asString method uri
  | none =>
    .error (.raisedException
      "Missing WWW-Authenticate header with digest in 401 response.")

/-- `RTSPProtocolClient.send_rtsp` (lines 57-64). `server` maps each
request text to the response the socket yields for it. Returns the list
of requests actually sent and either the escaping exception or the final
response together with the updated client state. -/
def send_rtsp (md5 : String → String) (cnonce : String)
    (server : String → String) (c : ClientState)
    (method url extra_headers : String) :
    List String × Except PyError (String × ClientState) :=
  let req1 := build_request c method url extra_headers none
  let resp1 := server req1
  match handle_401 md5 cnonce c resp1 method url with
  | .error e => ([req1], .error e)
  | .ok auth =>
    let req2 := build_request c method url extra_headers (some auth)
    let resp2 := server req2
    ([req1, req2], .ok (resp2, { c with cseq := c.cseq + 1 }))

/-! ## InterleavedChannelDemux
The inner `while len(buffer) >= 4` loop of
`RTSPProtocolClient.receive_data` (lines 163-182), processing one
accumulated buffer: slices `$`-framed interleaved packets and routes those
whose channel is in the handler map, consumes textual RTSP messages up to
and including their `\r\n\r\n` delimiter, and stops when neither a full
packet nor a full message is available. -/

/-- `buffer.find(b"\r\n\r\n")`: index of the first occurrence, or none. -/
def findDelim : List Nat → Option Nat
  | [] => none
  | b :: rest =>
    if [13, 10, 13, 10].isPrefixOf (b :: rest) then some 0
    else (findDelim rest).map (· + 1)

/-- One exhaustion of the demux loop on `buffer` with the channels of
`handler_map` given as `handlers`: returns the packets dispatched to
registered handlers (channel, payload), the decoded textual messages
consumed (delimiter included; `msg = buffer[:end_idx+4].decode()` runs
before the buffer advances), the remaining unconsumed buffer, and a flag
that is true when a `UnicodeDecodeError` escaped: `receive_data` catches
only `KeyboardInterrupt`, so a non-UTF-8 message aborts the loop with the
message still unconsumed in the buffer. -/
def processBuffer (handlers : List Nat) (buffer : List Nat) :
    List (Nat × List Nat) × List (List Nat) × List Nat × Bool :=
  if _h4 : buffer.length < 4 then ([], [], buffer, false)
  else if buffer.headD 0 = 36 then
    let channel := buffer.getD 1 0
    let len := buffer.getD 2 0 * 256 + buffer.getD 3 0
    if hlen : buffer.length < 4 + len then ([], [], buffer, false)
    else
      let pkt := (buffer.drop 4).take len
      let r := processBuffer handlers (buffer.drop (4 + len))
      (if channel ∈ handlers then (channel, pkt) :: r.1 else r.1,
       r.2.1, r.2.2)
  else
    match findDelim buffer with
    | some idx =>
      match utf8Decode (buffer.take (idx + 4)) with
      | none => ([], [], buffer, true)
      | some msg =>
        let r := processBuffer handlers (buffer.drop (idx + 4))
        (r.1, msg :: r.2.1, r.2.2)
    | none => ([], [], buffer, false)
termination_by buffer.length
decreasing_by
  · simp only [List.length_drop]; omega
  · simp only [List.length_drop]; omega

/-! ## Theorems -/

/-! ### C2: truncated RTP packets -/

/-- Claim C2: for every input buffer shorter than its computed RTP header
length (12 bytes plus 4 per CSRC, CSRC count being the low nibble of byte
0), both RTP application-data handlers report a truncated-packet error,
leave the reassembly accumulator unchanged, and deliver no message. -/
theorem C2_truncated_packet_rejected (acc raw : List Nat)
    (h : raw.length < headerLength raw) :
    (onNewApplicationDataSample acc raw).1 = acc ∧
    (onNewApplicationDataSample acc raw).2.isTruncated = true ∧
    (onNewApplicationDataSample acc raw).2.toMessages = [] ∧
    (onNewSample acc raw).1 = acc ∧
    (onNewSample acc raw).2.isTruncated = true ∧
    (onNewSample acc raw).2.toMessages = [] := by
  by_cases h12 : raw.length < 12
  · simp [onNewApplicationDataSample, onNewSample, h12,
      AppOutcome.isTruncated, MetaOutcome.isTruncated,
      AppOutcome.toMessages, MetaOutcome.toMessages]
  · simp [onNewApplicationDataSample, onNewSample, h12, h,
      AppOutcome.isTruncated, MetaOutcome.isTruncated,
      AppOutcome.toMessages, MetaOutcome.toMessages]

/-- Claim C2, witness: a 3-byte buffer is shorter than its 12-byte header
and is rejected with the accumulator untouched. -/
theorem C2_truncated_packet_rejected_witness :
    ([0, 0, 0] : List Nat).length < headerLength [0, 0, 0] ∧
    (onNewApplicationDataSample [97] [0, 0, 0]).1 = [97] ∧
    (onNewApplicationDataSample [97] [0, 0, 0]).2.isTruncated = true :=
  ⟨by decide,
   (C2_truncated_packet_rejected [97] [0, 0, 0] (by decide)).1,
   (C2_truncated_packet_rejected [97] [0, 0, 0] (by decide)).2.1⟩

/-! ### C5: accumulator reset discipline -/

/-- Claim C5, counterexample: a malformed (truncated) packet does NOT
leave the accumulator empty — `_on_new_application_data_sample` returns
before touching `_xml_acc`, so an accumulator holding byte 97 still holds
it after processing the malformed empty packet, refuting "after any
malformed packet, the accumulator is empty". -/
theorem C5_counterexample :
    (onNewApplicationDataSample [97] []).1 = [97] ∧
    (onNewApplicationDataSample [97] []).2.isTruncated = true ∧
    ([97] : List Nat) ≠ [] := by decide

/-- Claim C5, amended: after the grabber handler processes any packet
with a valid header whose marker bit is set, the accumulator is empty
regardless of outcome (emitted message, no-XML-start error, or UTF-8
decode failure); a packet shorter than its computed header leaves the
accumulator unchanged (it contributes no bytes, but the accumulator is
not cleared). -/
theorem C5_accumulator_reset_amended :
    (∀ acc raw : List Nat, headerLength raw ≤ raw.length →
      markerBit raw = true → (onNewApplicationDataSample acc raw).1 = []) ∧
    (∀ acc raw : List Nat, raw.length < headerLength raw →
      (onNewApplicationDataSample acc raw).1 = acc) := by
  constructor
  · intro acc raw hv hm
    have h12 : ¬ raw.length < 12 := by
      simp only [headerLength] at hv; omega
    have hh : ¬ raw.length < headerLength raw := by omega
    simp only [onNewApplicationDataSample, if_neg h12, if_neg hh, hm,
      Bool.not_true, Bool.false_eq_true, if_false]
    cases hf : findByte 60 (acc ++ rtpPayload raw) with
    | none => simp
    | some start =>
      cases hd : utf8Decode ((acc ++ rtpPayload raw).drop start) <;>
        simp [hd]
  · intro acc raw h
    by_cases h12 : raw.length < 12
    · simp [onNewApplicationDataSample, h12]
    · simp [onNewApplicationDataSample, h12, h]

/-- Claim C5, witness: a marker-bit packet whose accumulated bytes hold
no `<` clears the accumulator, and a truncated packet leaves it as is. -/
theorem C5_accumulator_reset_amended_witness :
    (onNewApplicationDataSample []
      [128, 224, 0, 0, 0, 0, 0, 0, 0, 0, 0, 0, 97]).1 = [] ∧
    (onNewApplicationDataSample [97] [0, 0, 0]).1 = [97] :=
  ⟨C5_accumulator_reset_amended.1 []
      [128, 224, 0, 0, 0, 0, 0, 0, 0, 0, 0, 0, 97] (by decide) (by decide),
   C5_accumulator_reset_amended.2 [97] [0, 0, 0] (by decide)⟩

/-! ### C6: NTP-to-unix conversion -/

/-- Claim C6, counterexample: for NTP seconds 3871129600 and fraction 0
the derived unix time is 1662140800, not the 1662141000 the claim
states (3871129600 − 2208988800 = 1662140800). -/
theorem C6_counterexample :
    convertNtpToUnix 3871129600 0 ≠ 1662141000 := by
  norm_num [convertNtpToUnix]

/-- Claim C6, amended: the NTP-to-unix conversion satisfies
unix = S − 2208988800 + F/2^32 for every NTP seconds value S and fraction
F; in particular, for S = 3871129600 and F = 0 the derived unix time
equals 1662140800 exactly. -/
theorem C6_ntp_conversion_amended :
    (∀ S F : Nat,
      convertNtpToUnix S F = (S : ℚ) - 2208988800 + (F : ℚ) / 2 ^ 32) ∧
    convertNtpToUnix 3871129600 0 = 1662140800 := by
  constructor
  · intro S F; rfl
  · norm_num [convertNtpToUnix]

/-- Claim C6, witness: the amended conversion formula evaluated at the
corrected regression vector. -/
theorem C6_ntp_conversion_amended_witness :
    convertNtpToUnix 3871129600 0 =
      (3871129600 : ℚ) - 2208988800 + (0 : ℚ) / 2 ^ 32 :=
  C6_ntp_conversion_amended.1 3871129600 0

/-! ### C9: stop() idempotence -/

/-- Claim C9: `stop()` is idempotent on the retriever lifecycle state:
called on the freshly initialised retriever it is a no-op; called twice
it leaves the same state as called once; and from any started state one
`stop()` reaches the fully stopped state (no worker process, no dispatch
thread, stop event set). -/
theorem C9_stop_idempotent :
    RetrieverState.stop initRetriever = initRetriever ∧
    (∀ r : RetrieverState, r.stop.stop = r.stop) ∧
    (∀ r : RetrieverState, r.proc.isSome = true →
      r.stop.proc = none ∧ r.stop.queueThread = none ∧
      r.stop.stopEventSet = true) := by
  refine ⟨rfl, fun r => ?_, fun r h => ?_⟩
  · cases hp : r.proc with
    | none => simp [RetrieverState.stop, hp]
    | some a => simp [RetrieverState.stop, hp]
  · cases hp : r.proc with
    | none => simp [hp] at h
    | some a => simp [RetrieverState.stop, hp]

/-- Claim C9, witness: stopping a running retriever twice equals stopping
it once, and one stop fully stops it. -/
theorem C9_stop_idempotent_witness :
    (RetrieverState.stop
        (RetrieverState.stop ⟨some true, some true, false⟩) =
      RetrieverState.stop ⟨some true, some true, false⟩) ∧
    (RetrieverState.stop ⟨some true, some true, false⟩).proc = none :=
  ⟨C9_stop_idempotent.2.1 ⟨some true, some true, false⟩,
   (C9_stop_idempotent.2.2 ⟨some true, some true, false⟩ (by decide)).1⟩

/-! ### C10: dispatch loop gives up after 20 consecutive empty polls -/

theorem maxEmptyPolls_eq : MAX_EMPTY_POLLS = 20 := by
  norm_num [MAX_EMPTY_POLLS, dispatchWaitTime, QUEUE_POLL_INTERVAL]

theorem dispatchLoop_empty_exit (n : Nat) :
    ∀ (consec : Nat) (rest : List PollResult), 20 ≤ consec + n → 1 ≤ n →
    queueDispatchLoop false true
      (List.replicate n PollResult.empty ++ rest) consec = [] := by
  induction n with
  | zero => intro consec rest h20 h1; omega
  | succ m ih =>
    intro consec rest h20 _
    rw [List.replicate_succ, List.cons_append]
    have hunf : queueDispatchLoop false true
        (PollResult.empty :: (List.replicate m PollResult.empty ++ rest))
        consec =
        if MAX_EMPTY_POLLS ≤ ((consec + 1 : Nat) : ℚ) then []
        else queueDispatchLoop false true
          (List.replicate m PollResult.empty ++ rest) (consec + 1) := rfl
    rw [hunf, maxEmptyPolls_eq]
    by_cases hc : 20 ≤ consec + 1
    · rw [if_pos (by exact_mod_cast hc)]
    · rw [if_neg (by exact_mod_cast hc)]
      exact ih (consec + 1) rest (by omega) (by omega)

/-- Claim C10: if the dispatch loop observes 20 consecutive empty queue
polls (10 seconds at the 0.5-second poll interval) while stop has not
been requested and the worker process is alive, it exits permanently: no
event polled after that point is ever dispatched to a consumer
callback. -/
theorem C10_dispatch_loop_empty_poll_exit (rest : List PollResult) :
    queueDispatchLoop false true
      (List.replicate 20 PollResult.empty ++ rest) 0 = [] :=
  dispatchLoop_empty_exit 20 0 rest (by omega) (by omega)

/-- Claim C10, witness: a video event enqueued right after the 20 empty
polls is never dispatched. -/
theorem C10_dispatch_loop_empty_poll_exit_witness :
    queueDispatchLoop false true
      (List.replicate 20 PollResult.empty ++ [PollResult.item "video"]) 0
      = [] :=
  C10_dispatch_loop_empty_poll_exit [PollResult.item "video"]

/-! ### C3: digest response computation -/

/-- Claim C3: for every challenge from which realm `r` and nonce `n` are
extracted, credentials (`u`, `p`), method `m` and URI `uri`: with no qop
the returned header carries response `MD5(HA1:n:HA2)` where
`HA1 = MD5(u:r:p)` and `HA2 = MD5(m:uri)`; with qop `q` it carries
response `MD5(HA1:n:nc:cnonce:q:HA2)` with the fixed nc `00000001` and
the generated client nonce, and the header additionally includes qop, nc
and cnonce. `md5` stands for the external MD5 hexdigest. -/
theorem C3_digest_response (md5 : String → String) (cnonce : String)
    (u p www m uri r n : String)
    (hr : searchParam "realm" www = some r)
    (hn : searchParam "nonce" www = some n) :
    (searchParam "qop" www = none →
      compute_digest_auth md5 cnonce u p www m uri =
        .ok ("Digest username=\"" ++ u ++ "\", realm=\"" ++ r ++
          "\", nonce=\"" ++ n ++ "\", uri=\"" ++ uri ++
          "\", response=\"" ++
          md5 (md5 (u ++ ":" ++ r ++ ":" ++ p) ++ ":" ++ n ++ ":" ++
            md5 (m ++ ":" ++ uri)) ++
          "\", algorithm=\"MD5\"")) ∧
    (∀ q, searchParam "qop" www = some q →
      compute_digest_auth md5 cnonce u p www m uri =
        .ok ("Digest username=\"" ++ u ++ "\", realm=\"" ++ r ++
          "\", nonce=\"" ++ n ++ "\", uri=\"" ++ uri ++
          "\", response=\"" ++
          md5 (md5 (u ++ ":" ++ r ++ ":" ++ p) ++ ":" ++ n ++ ":" ++
            "00000001" ++ ":" ++ cnonce ++ ":" ++ q ++ ":" ++
            md5 (m ++ ":" ++ uri)) ++
          "\", algorithm=\"MD5\", qop=" ++ q ++ ", nc=" ++ "00000001" ++
          ", cnonce=\"" ++ cnonce ++ "\"")) := by
  constructor
  · intro hq
    simp [compute_digest_auth, hr, hn, hq]
  · intro q hq
    simp [compute_digest_auth, hr, hn, hq]

/-- Claim C3, witness: the regression challenge
`realm="testrealm", nonce="abc123"` (no qop), evaluated with the hash
function left observable. -/
theorem C3_digest_response_witness :
    searchParam "realm" "Digest realm=\"testrealm\", nonce=\"abc123\"" =
      some "testrealm" ∧
    compute_digest_auth (fun s => s) "0011223344556677" "root" "pass"
      "Digest realm=\"testrealm\", nonce=\"abc123\"" "DESCRIBE"
      "rtsp://x/y" =
      .ok ("Digest username=\"" ++ "root" ++ "\", realm=\"" ++
        "testrealm" ++ "\", nonce=\"" ++ "abc123" ++ "\", uri=\"" ++
        "rtsp://x/y" ++ "\", response=\"" ++
        (("root" ++ ":" ++ "testrealm" ++ ":" ++ "pass") ++ ":" ++
          "abc123" ++ ":" ++ ("DESCRIBE" ++ ":" ++ "rtsp://x/y")) ++
        "\", algorithm=\"MD5\"") :=
  ⟨by rfl,
   (C3_digest_response (fun s => s) "0011223344556677" "root" "pass"
      "Digest realm=\"testrealm\", nonce=\"abc123\"" "DESCRIBE"
      "rtsp://x/y" "testrealm" "abc123" (by rfl) (by rfl)).1 (by rfl)⟩

/-! ### C7: challenge with realm or nonce absent -/

/-- Claim C7, counterexample: on a challenge whose nonce parameter is
absent, `compute_digest_auth` fails with an `AttributeError` (calling
`.group(1)` on the `None` returned by `re.search`), which is not a
deliberate, identifiable failure; the claimed `MissingChallenge` error
does not exist in the code. -/
theorem C7_counterexample :
    compute_digest_auth (fun s => s) "0011223344556677" "root" "pass"
      "Digest realm=\"testrealm\"" "DESCRIBE" "rtsp://x/y" =
      .error PyError.attributeError ∧
    PyError.isDeliberate PyError.attributeError = false := by
  exact ⟨by rfl, by rfl⟩

/-- Claim C7, amended: for every challenge value in which the realm
parameter or the nonce parameter is absent, `compute_digest_auth` fails
by raising an unhandled `AttributeError` (an arbitrary exception, not an
identifiable MissingChallenge error) and produces no Authorization
header. -/
theorem C7_missing_challenge_amended (md5 : String → String)
    (cnonce u p www m uri : String)
    (h : searchParam "realm" www = none ∨ searchParam "nonce" www = none) :
    compute_digest_auth md5 cnonce u p www m uri =
      .error PyError.attributeError := by
  rcases h with h | h
  · simp [compute_digest_auth, h]
  · cases hr : searchParam "realm" www with
    | none => simp [compute_digest_auth, hr]
    | some r => simp [compute_digest_auth, hr, h]

/-- Claim C7, witness: a challenge carrying a realm but no nonce makes
the authenticator raise and yield no header. -/
theorem C7_missing_challenge_amended_witness :
    compute_digest_auth (fun s => s) "0011223344556677" "root" "pass"
      "Digest realm=\"axis\"" "DESCRIBE" "rtsp://x/y" =
      .error PyError.attributeError :=
  C7_missing_challenge_amended (fun s => s) "0011223344556677" "root"
    "pass" "Digest realm=\"axis\"" "DESCRIBE" "rtsp://x/y"
    (Or.inr (by rfl))

/-! ### C4: 401 retry behaviour of send_rtsp -/

/-- Claim C4, counterexample: when the first response to a request is a
success (`200 OK`) without a `WWW-Authenticate` header, `send_rtsp` does
fail for lack of a WWW-Authenticate header — it unconditionally calls
`handle_401` on the first response, which raises. -/
theorem C4_counterexample :
    (send_rtsp (fun s => s) "0011223344556677"
      (fun _ => "RTSP/1.0 200 OK\r\nCSeq: 1\r\nSession: 12345678\r\n\r\n")
      ⟨"root", "pass", "ax-devil-RTSPClient/1.0", "rtsp://x", 1, none⟩
      "DESCRIBE" "rtsp://x" "").2 =
      .error (.raisedException
        "Missing WWW-Authenticate header with digest in 401 response.") ∧
    strContainsSub "RTSP/1.0 200 OK\r\nCSeq: 1\r\nSession: 12345678\r\n\r\n"
      "200 OK" = true := by
  exact ⟨by rfl, by rfl⟩

/-- Claim C4, amended: every call of `send_rtsp` sends at most two
requests; it unconditionally computes a Digest Authorization header from
the first response's `WWW-Authenticate` value (whatever the status) and
re-sends exactly once with it; when that computation fails — in
particular when the first response, even a success, carries no
`WWW-Authenticate: Digest` header — the call fails with that error after
the single unauthenticated request. -/
theorem C4_retry_amended (md5 : String → String) (cnonce : String)
    (server : String → String) (c : ClientState)
    (method url extra_headers : String) :
    ((send_rtsp md5 cnonce server c method url extra_headers).1.length ≤ 2) ∧
    (∀ e, handle_401 md5 cnonce c
        (server (build_request c method url extra_headers none))
        method url = .error e →
      send_rtsp md5 cnonce server c method url extra_headers =
        ([build_request c method url extra_headers none], .error e)) ∧
    (∀ auth, handle_401 md5 cnonce c
        (server (build_request c method url extra_headers none))
        method url = .ok auth →
      (send_rtsp md5 cnonce server c method url extra_headers).1 =
        [build_request c method url extra_headers none,
         build_request c method url extra_headers (some auth)]) := by
  refine ⟨?_, fun e he => ?_, fun auth ha => ?_⟩
  · cases hh : handle_401 md5 cnonce c
        (server (build_request c method url extra_headers none))
        method url with
    | error e => simp [send_rtsp, hh]
    | ok a => simp [send_rtsp, hh]
  · simp [send_rtsp, he]
  · simp [send_rtsp, ha]

/-- Claim C4, witness: against a server that always answers with a
challenge-less success, a DESCRIBE call sends one request and fails with
the missing-WWW-Authenticate exception. -/
theorem C4_retry_amended_witness :
    send_rtsp (fun s => s) "0011223344556677"
      (fun _ => "RTSP/1.0 200 OK\r\nCSeq: 1\r\n\r\n")
      ⟨"root", "pass", "ax-devil-RTSPClient/1.0", "rtsp://x", 1, none⟩
      "DESCRIBE" "rtsp://x" "" =
      ([build_request
          ⟨"root", "pass", "ax-devil-RTSPClient/1.0", "rtsp://x", 1, none⟩
          "DESCRIBE" "rtsp://x" "" none],
       .error (.raisedException
         "Missing WWW-Authenticate header with digest in 401 response.")) :=
  (C4_retry_amended (fun s => s) "0011223344556677"
    (fun _ => "RTSP/1.0 200 OK\r\nCSeq: 1\r\n\r\n")
    ⟨"root", "pass", "ax-devil-RTSPClient/1.0", "rtsp://x", 1, none⟩
    "DESCRIBE" "rtsp://x" "").2.1
    (.raisedException
      "Missing WWW-Authenticate header with digest in 401 response.")
    (by rfl)

/-! ### C8: interleaved channel demultiplexer -/

/-- Claim C8: a buffer holding one interleaved frame (marker byte 0x24,
channel id 0, big-endian 16-bit length, exactly that many payload bytes)
followed by a textual RTSP message — one whose bytes decode as UTF-8 —
terminated by its first blank line is demultiplexed into exactly one
packet routed to the registered channel-0 handler carrying exactly the
payload bytes, and exactly one consumed (decoded) text message, leaving
the buffer empty with no decode error. -/
theorem C8_demux_one_packet_one_text (handlers : List Nat)
    (pay t m : List Nat)
    (hch : 0 ∈ handlers)
    (hpay : pay.length < 65536)
    (ht36 : t.headD 0 ≠ 36)
    (ht4 : 4 ≤ t.length)
    (htd : findDelim t = some (t.length - 4))
    (hdec : utf8Decode t = some m) :
    processBuffer handlers
      ([36, 0, pay.length / 256, pay.length % 256] ++ pay ++ t) =
      ([(0, pay)], [m], [], false) := by
  have hlenB :
      ([36, 0, pay.length / 256, pay.length % 256] ++ pay ++ t).length =
        4 + pay.length + t.length := by
    simp [List.length_append]; omega
  have hLrec : pay.length / 256 * 256 + pay.length % 256 = pay.length := by
    omega
  have htne : t ≠ [] := by
    intro h; rw [h] at ht4; simp at ht4
  -- innermost call: the empty buffer
  have hnil : processBuffer handlers [] = ([], [], [], false) := by
    rw [processBuffer]; simp
  -- middle call: the textual message alone
  have htext : processBuffer handlers t = ([], [m], [], false) := by
    rw [processBuffer]
    rw [dif_neg (by omega)]
    rw [if_neg ht36, htd]
    have h1 : t.length - 4 + 4 = t.length := by omega
    simp only [h1, List.take_length, List.drop_length, hdec, hnil]
  -- outer call: the framed packet followed by the text
  rw [processBuffer]
  rw [dif_neg (by omega)]
  rw [if_pos (by simp : ([36, 0, pay.length / 256, pay.length % 256] ++
    pay ++ t).headD 0 = 36)]
  simp only [List.cons_append, List.nil_append, List.getD_cons_succ,
    List.getD_cons_zero]
  rw [dif_neg (by
    simp only [List.length_cons, List.length_append]
    omega)]
  have hdrop4 : ((36 : Nat) :: 0 :: (pay.length / 256) ::
      (pay.length % 256) :: (pay ++ t)).drop 4 = pay ++ t := rfl
  have hdropLen : ((36 : Nat) :: 0 :: (pay.length / 256) ::
      (pay.length % 256) :: (pay ++ t)).drop
        (4 + (pay.length / 256 * 256 + pay.length % 256)) = t := by
    rw [hLrec, ← List.drop_drop]
    simp [List.drop_left]
  have htake : (pay ++ t).take (pay.length / 256 * 256 + pay.length % 256)
      = pay := by rw [hLrec]; exact List.take_left pay t
  rw [hdrop4, hdropLen, htake, htext]
  simp [hch]

/-- Claim C8, witness: the 2-byte payload `[65, 66]` on channel 0
followed by `RTSP/1.0 200 OK` and a blank line (ASCII, so the decoded
code points equal the bytes). -/
theorem C8_demux_one_packet_one_text_witness :
    processBuffer [0]
      ([36, 0, 0, 2] ++ [65, 66] ++
        [82, 84, 83, 80, 47, 49, 46, 48, 32, 50, 48, 48, 32, 79, 75,
         13, 10, 13, 10]) =
      ([(0, [65, 66])],
       [[82, 84, 83, 80, 47, 49, 46, 48, 32, 50, 48, 48, 32, 79, 75,
         13, 10, 13, 10]], [], false) := by
  have h := C8_demux_one_packet_one_text [0] [65, 66]
    [82, 84, 83, 80, 47, 49, 46, 48, 32, 50, 48, 48, 32, 79, 75,
     13, 10, 13, 10]
    [82, 84, 83, 80, 47, 49, 46, 48, 32, 50, 48, 48, 32, 79, 75,
     13, 10, 13, 10]
    (by decide) (by decide) (by decide) (by decide) (by decide) (by decide)
  exact h

/-! ### C1: marker-bit driven reassembly -/

theorem step_valid_nonmarker (acc raw : List Nat)
    (hv : headerLength raw ≤ raw.length) (hm : markerBit raw = false) :
    onNewApplicationDataSample acc raw =
      (acc ++ rtpPayload raw, .okNoMarker) := by
  have h12 : ¬ raw.length < 12 := by simp only [headerLength] at hv; omega
  have hh : ¬ raw.length < headerLength raw := by omega
  simp [onNewApplicationDataSample, h12, hh, hm]

theorem step_valid_nonmarker_meta (buf raw : List Nat)
    (hv : headerLength raw ≤ raw.length) (hm : markerBit raw = false) :
    onNewSample buf raw = (buf ++ rtpPayload raw, .okNoMarker) := by
  have h12 : ¬ raw.length < 12 := by simp only [headerLength] at hv; omega
  have hh : ¬ raw.length < headerLength raw := by omega
  simp [onNewSample, h12, hh, hm]

theorem runApp_nonmarker (ps : List (List Nat)) :
    ∀ acc, (∀ p ∈ ps, headerLength p ≤ p.length ∧ markerBit p = false) →
    runApp ps acc = (acc ++ concatPayloads ps, []) := by
  induction ps with
  | nil => intro acc _; simp [runApp, concatPayloads]
  | cons p ps ih =>
    intro acc h
    have hp := h p (List.mem_cons_self p ps)
    simp only [runApp, step_valid_nonmarker acc p hp.1 hp.2,
      ih (acc ++ rtpPayload p) (fun q hq => h q (List.mem_cons_of_mem p hq))]
    simp [concatPayloads, AppOutcome.toMessages, List.append_assoc]

theorem runMeta_nonmarker (ps : List (List Nat)) :
    ∀ buf, (∀ p ∈ ps, headerLength p ≤ p.length ∧ markerBit p = false) →
    runMeta ps buf = (buf ++ concatPayloads ps, []) := by
  induction ps with
  | nil => intro buf _; simp [runMeta, concatPayloads]
  | cons p ps ih =>
    intro buf h
    have hp := h p (List.mem_cons_self p ps)
    simp only [runMeta, step_valid_nonmarker_meta buf p hp.1 hp.2,
      ih (buf ++ rtpPayload p) (fun q hq => h q (List.mem_cons_of_mem p hq))]
    simp [concatPayloads, MetaOutcome.toMessages, List.append_assoc]

theorem runApp_append (xs ys : List (List Nat)) :
    ∀ acc, runApp (xs ++ ys) acc =
      ((runApp ys (runApp xs acc).1).1,
       (runApp xs acc).2 ++ (runApp ys (runApp xs acc).1).2) := by
  induction xs with
  | nil => intro acc; simp [runApp]
  | cons p xs ih =>
    intro acc
    simp only [List.cons_append, runApp, List.append_eq]
    rw [ih]
    simp [List.append_assoc]

theorem runMeta_append (xs ys : List (List Nat)) :
    ∀ buf, runMeta (xs ++ ys) buf =
      ((runMeta ys (runMeta xs buf).1).1,
       (runMeta xs buf).2 ++ (runMeta ys (runMeta xs buf).1).2) := by
  induction xs with
  | nil => intro buf; simp [runMeta]
  | cons p xs ih =>
    intro buf
    simp only [List.cons_append, runMeta, List.append_eq]
    rw [ih]
    simp [List.append_assoc]

theorem findByte_drop (b : Nat) (l : List Nat) :
    ∀ i, findByte b l = some i → l.drop i = b :: l.drop (i + 1) := by
  induction l with
  | nil => intro i h; simp [findByte] at h
  | cons x xs ih =>
    intro i h
    by_cases hx : x = b
    · simp [findByte, hx] at h
      subst h
      simp [hx]
    · simp only [findByte, if_neg hx, Option.map_eq_some'] at h
      obtain ⟨j, hj, hji⟩ := h
      subst hji
      simpa [List.drop_succ_cons] using ih j hj

theorem utf8Decode_lt_head (t s : List Nat)
    (h : utf8Decode (60 :: t) = some s) : ∃ s2, s = 60 :: s2 := by
  have he : utf8Decode (60 :: t) = (utf8Decode t).map (60 :: ·) := rfl
  rw [he, Option.map_eq_some'] at h
  obtain ⟨m, _, hs⟩ := h
  exact ⟨m, hs.symm⟩

theorem step_marker_emit (acc raw : List Nat) (i : Nat) (s : List Nat)
    (hv : headerLength raw ≤ raw.length) (hm : markerBit raw = true)
    (hf : findByte 60 (acc ++ rtpPayload raw) = some i)
    (hd : utf8Decode ((acc ++ rtpPayload raw).drop i) = some s) :
    onNewApplicationDataSample acc raw = ([], .emitted s) := by
  have h12 : ¬ raw.length < 12 := by simp only [headerLength] at hv; omega
  have hh : ¬ raw.length < headerLength raw := by omega
  simp [onNewApplicationDataSample, h12, hh, hm, hf, hd]

theorem step_marker_emit_meta (buf raw : List Nat) (i : Nat) (s : List Nat)
    (hv : headerLength raw ≤ raw.length) (hm : markerBit raw = true)
    (hf : findByte 60 (buf ++ rtpPayload raw) = some i)
    (hd : utf8Decode ((buf ++ rtpPayload raw).drop i) = some s)
    (hl : lstripStartsWithLt s = true) :
    onNewSample buf raw = ([], .emitted s) := by
  have h12 : ¬ raw.length < 12 := by simp only [headerLength] at hv; omega
  have hh : ¬ raw.length < headerLength raw := by omega
  simp [onNewSample, h12, hh, hm, hf, hd, hl]

/-- Claim C1: for every sequence of N ≥ 1 RTP application-data packets
with valid headers, marker bit set only on the last, if the concatenation
of their payloads contains a `<` byte at first index `i` and the suffix
from there decodes as UTF-8 to `s`, then both reassemblers (the grabber's
`_on_new_application_data_sample` and the metadata client's
`_on_new_sample`) emit exactly one message, equal to `s`, and emit
nothing while processing the first N−1 packets. -/
theorem C1_fragment_reassembly (pkts : List (List Nat)) (hne : pkts ≠ [])
    (hv : ∀ p ∈ pkts, headerLength p ≤ p.length)
    (hm : ∀ p ∈ pkts.dropLast, markerBit p = false)
    (hlast : markerBit (pkts.getLast hne) = true)
    (i : Nat) (s : List Nat)
    (hf : findByte 60 (concatPayloads pkts) = some i)
    (hd : utf8Decode ((concatPayloads pkts).drop i) = some s) :
    (runApp pkts []).2 = [s] ∧ (runApp pkts.dropLast []).2 = [] ∧
    (runMeta pkts []).2 = [s] ∧ (runMeta pkts.dropLast []).2 = [] := by
  have hx : ∀ p ∈ pkts.dropLast,
      headerLength p ≤ p.length ∧ markerBit p = false :=
    fun p hp => ⟨hv p (List.dropLast_subset pkts hp), hm p hp⟩
  have hsplit := List.dropLast_append_getLast hne
  have hcat : concatPayloads pkts =
      concatPayloads pkts.dropLast ++ rtpPayload (pkts.getLast hne) := by
    conv_lhs => rw [← hsplit]
    simp [concatPayloads]
  have hvlast : headerLength (pkts.getLast hne) ≤
      (pkts.getLast hne).length := hv _ (List.getLast_mem hne)
  have hf2 : findByte 60
      (concatPayloads pkts.dropLast ++ rtpPayload (pkts.getLast hne)) =
      some i := by rw [← hcat]; exact hf
  have hd2 : utf8Decode
      ((concatPayloads pkts.dropLast ++
        rtpPayload (pkts.getLast hne)).drop i) = some s := by
    rw [← hcat]; exact hd
  have hruns : runApp pkts.dropLast [] = (concatPayloads pkts.dropLast, [])
      := by simpa using runApp_nonmarker pkts.dropLast [] hx
  have hrunsM : runMeta pkts.dropLast [] =
      (concatPayloads pkts.dropLast, []) := by
    simpa using runMeta_nonmarker pkts.dropLast [] hx
  have hlst : lstripStartsWithLt s = true := by
    have hdrop := findByte_drop 60 (concatPayloads pkts) i hf
    rw [hdrop] at hd
    obtain ⟨s2, rfl⟩ := utf8Decode_lt_head _ s hd
    simp [lstripStartsWithLt, List.dropWhile_cons,
      show isPySpaceCp 60 = false from rfl]
  refine ⟨?_, ?_, ?_, ?_⟩
  · conv_lhs => rw [← hsplit]
    rw [runApp_append, hruns]
    simp [runApp,
      step_marker_emit (concatPayloads pkts.dropLast) (pkts.getLast hne)
        i s hvlast hlast hf2 hd2, AppOutcome.toMessages]
  · rw [hruns]
  · conv_lhs => rw [← hsplit]
    rw [runMeta_append, hrunsM]
    simp [runMeta,
      step_marker_emit_meta (concatPayloads pkts.dropLast)
        (pkts.getLast hne) i s hvlast hlast hf2 hd2 hlst,
      MetaOutcome.toMessages]
  · rw [hrunsM]

/-- Claim C1, witness: two packets carrying `x<a` and `b>` with the
marker only on the second emit exactly the decoded suffix `<ab>` in both
reassemblers, and nothing before the marker packet. -/
theorem C1_fragment_reassembly_witness :
    (runApp [[128, 96, 0, 0, 0, 0, 0, 0, 0, 0, 0, 0, 120, 60, 97],
             [128, 224, 0, 1, 0, 0, 0, 0, 0, 0, 0, 0, 98, 62]] []).2 =
      [[60, 97, 98, 62]] ∧
    (runApp [[128, 96, 0, 0, 0, 0, 0, 0, 0, 0, 0, 0, 120, 60, 97]] []).2
      = [] ∧
    (runMeta [[128, 96, 0, 0, 0, 0, 0, 0, 0, 0, 0, 0, 120, 60, 97],
              [128, 224, 0, 1, 0, 0, 0, 0, 0, 0, 0, 0, 98, 62]] []).2 =
      [[60, 97, 98, 62]] := by
  have h := C1_fragment_reassembly
    [[128, 96, 0, 0, 0, 0, 0, 0, 0, 0, 0, 0, 120, 60, 97],
     [128, 224, 0, 1, 0, 0, 0, 0, 0, 0, 0, 0, 98, 62]]
    (by decide) (by decide) (by decide) (by decide) 1 [60, 97, 98, 62]
    (by decide) (by decide)
  exact ⟨h.1, by simpa using h.2.1, h.2.2.1⟩

end AxDevilRtsp
